import Mathlib

/-!
Verification of the chezmoi `add` command hooks (`internal/cmd/addcmd.go`)
and of the `chezmoimaps` map-key utilities, as a shallow embedding in Lean 4.

The Go code is single-threaded and all effects of the embedded functions are
reads of the destination filesystem, invocations of the secret detector,
interactive prompts, log lines written via `c.errorf`, and mutation of the
shared `Config`.  We model each hook as a pure function from the `Config`
and an environment (the results the outside world would deliver: the file
content read, the detector, the answer given at the prompt) to a
`HookOutput` record collecting the returned Go `error` value, the updated
`Config`, and the observable side effects (log lines, prompts issued, file
reads performed).
-/

namespace Chezmoi

/-- The `severity` flag type of the cmd package: values `severityIgnore`,
`severityWarning`, `severityError`. -/
inductive Severity where
  | ignore
  | warning
  | error
deriving DecidableEq, Repr

/-- A gitleaks finding, as used by `defaultPreAddFunc`: only `StartLine` and
`Description` are consulted. -/
structure Finding where
  startLine : Int
  description : String
deriving DecidableEq, Repr

/-- The slice of `fs.FileInfo` consulted by `defaultPreAddFunc`:
`fileInfo.Mode().Type()`, which is `0` exactly for a regular file. -/
structure FileInfo where
  modeType : Nat
deriving DecidableEq, Repr

/-- The Go `error` values that can flow out of the hooks:
`fs.SkipDir`, `chezmoi.ExitCodeError(n)`, and ordinary I/O errors coming
from `destSystem.ReadFile`, `getGitleaksDetector` or `promptChoice`. -/
inductive GoError where
  | skipDir
  | exitCodeError (code : Nat)
  | ioError (msg : String)
deriving DecidableEq, Repr

/-- The four choices of `choicesYesNoAllQuit`; `promptChoice` returns one of
exactly these on success, so the `panic` default branch of the Go switch is
unreachable. -/
inductive Choice where
  | yes
  | no
  | all
  | quit
deriving DecidableEq, Repr

/-- The fields of `addCmdConfig` consulted by the hooks. -/
structure AddConfig where
  Encrypt : Bool
  Secrets : Severity
  prompt : Bool
  quiet : Bool
deriving DecidableEq, Repr

/-- The slice of `*Config` consulted by the hooks: the `Add` sub-config, the
run-wide `force` flag, and the two root paths used to build messages. -/
structure Config where
  Add : AddConfig
  force : Bool
  DestDirAbsPath : String
  SourceDirAbsPath : String
deriving DecidableEq, Repr

/-- Model of `AbsPath.Join`: path concatenation with a slash separator. -/
def join (a b : String) : String := a ++ "/" ++ b

/-- Everything the outside world delivers to one invocation of
`defaultPreAddFunc`: the result of `destSystem.ReadFile` (content bytes or an
I/O error), the result of `getGitleaksDetector` (its `DetectBytes` as a
function from content to findings, or an error), and the result of
`promptChoice` if a prompt is issued. -/
structure PreAddEnv where
  readFileResult : Except String (List Nat)
  gitleaksDetector : Except String (List Nat → List Finding)
  promptResult : Except String Choice

/-- Input of the outside world to one invocation of `defaultReplaceFunc`: the
result of `promptChoice` if a prompt is issued. -/
structure ReplaceEnv where
  promptResult : Except String Choice
deriving Repr

deriving instance DecidableEq for Except

/-- The observable outcome of one hook invocation: the returned Go `error`
value (`Except.ok` for a `nil` return), the `Config` after the call (the Go
code mutates `c.Add.prompt` and `c.force`), the log lines written via
`c.errorf`, the prompt strings passed to `promptChoice`, and the absolute
paths passed to `destSystem.ReadFile`. -/
structure HookOutput where
  result : Except GoError Unit
  cfg : Config
  logs : List String
  prompts : List String
  reads : List String
deriving DecidableEq, Repr

/-- Model of `defaultOnIgnoreFunc`: warn about an ignored target path unless `--quiet`
was given.  The return value is the list of log lines written. -/
def defaultOnIgnoreFunc (c : Config) (targetRelPath : String) : List String :=
  if c.Add.quiet = false then
    ["warning: ignoring " ++ targetRelPath ++ "\n"]
  else
    []

/-- The trailing prompt loop of `defaultPreAddFunc` (lines 105-126 of
addcmd.go): if `--prompt` is not set, return `nil`; otherwise ask
`add <sourceDir/target>` and dispatch the chosen answer.  Every arm of the
Go `switch` returns, so the enclosing `for` loop runs at most once;
`choice == "all"` also clears `c.Add.prompt` for the rest of the run.
`logs` and `reads` carry the effects already performed by the secrets
section. -/
def promptPhase (c : Config) (targetRelPath : String) (env : PreAddEnv)
    (logs reads : List String) : HookOutput :=
  if c.Add.prompt = false then
    { result := .ok (), cfg := c, logs := logs, prompts := [], reads := reads }
  else
    match env.promptResult with
    | .error e =>
        { result := .error (.ioError e), cfg := c, logs := logs,
          prompts := ["add " ++ join c.SourceDirAbsPath targetRelPath], reads := reads }
    | .ok .all =>
        { result := .ok (), cfg := { c with Add := { c.Add with prompt := false } },
          logs := logs, prompts := ["add " ++ join c.SourceDirAbsPath targetRelPath],
          reads := reads }
    | .ok .no =>
        { result := .error .skipDir, cfg := c, logs := logs,
          prompts := ["add " ++ join c.SourceDirAbsPath targetRelPath], reads := reads }
    | .ok .quit =>
        { result := .error (.exitCodeError 0), cfg := c, logs := logs,
          prompts := ["add " ++ join c.SourceDirAbsPath targetRelPath], reads := reads }
    | .ok .yes =>
        { result := .ok (), cfg := c, logs := logs,
          prompts := ["add " ++ join c.SourceDirAbsPath targetRelPath], reads := reads }

/-- Model of `defaultPreAddFunc` (addcmd.go lines 84-127).  If secret scanning is
configured (`--secrets` not `ignore`), the candidate is a regular file
(`fileInfo.Mode().Type() == 0`) and `--encrypt` is not set: read the file,
obtain the gitleaks detector, log each finding, and — unless `--force` is
set — return `chezmoi.ExitCodeError(1)` when the severity is `error` and
there is at least one finding.  Then run the prompt phase. -/
def defaultPreAddFunc (c : Config) (targetRelPath : String) (fileInfo : FileInfo)
    (env : PreAddEnv) : HookOutput :=
  if c.Add.Secrets ≠ Severity.ignore ∧ fileInfo.modeType = 0 ∧ c.Add.Encrypt = false then
    match env.readFileResult with
    | .error e =>
        { result := .error (.ioError e), cfg := c, logs := [], prompts := [],
          reads := [join c.DestDirAbsPath targetRelPath] }
    | .ok content =>
      match env.gitleaksDetector with
      | .error e =>
          { result := .error (.ioError e), cfg := c, logs := [], prompts := [],
            reads := [join c.DestDirAbsPath targetRelPath] }
      | .ok detectBytes =>
        if c.force = false ∧ c.Add.Secrets = Severity.error ∧
            0 < (detectBytes content).length then
          { result := .error (.exitCodeError 1), cfg := c,
            logs := (detectBytes content).map fun f =>
              join c.DestDirAbsPath targetRelPath ++ ":" ++ toString (f.startLine + 1)
                ++ ": " ++ f.description ++ "\n",
            prompts := [], reads := [join c.DestDirAbsPath targetRelPath] }
        else
          promptPhase c targetRelPath env
            ((detectBytes content).map fun f =>
              join c.DestDirAbsPath targetRelPath ++ ":" ++ toString (f.startLine + 1)
                ++ ": " ++ f.description ++ "\n")
            [join c.DestDirAbsPath targetRelPath]
  else
    promptPhase c targetRelPath env [] []

/-- The attributes of a `chezmoi.SourceStateFile` consulted by
`defaultReplaceFunc`: `Encrypted`, `Private`, `Template`. -/
structure FileAttr where
  Encrypted : Bool
  Private : Bool
  Template : Bool
deriving DecidableEq, Repr

/-- A `chezmoi.SourceStateEntry`: `defaultReplaceFunc` only distinguishes
`*chezmoi.SourceStateFile` (the `file` variant, carrying its attributes)
from every other variant. -/
inductive SourceStateEntry where
  | file (attr : FileAttr)
  | dir
  | symlink
  | script
  | remove
deriving DecidableEq, Repr

/-- The `removedAttributes` slice built by `defaultReplaceFunc` (addcmd.go
lines 145-154), in the append order of the source. -/
def removedAttributes (newAttr oldAttr : FileAttr) : List String :=
  (if newAttr.Encrypted = false ∧ oldAttr.Encrypted = true then ["encrypted"] else []) ++
  (if newAttr.Private = false ∧ oldAttr.Private = true then ["private"] else []) ++
  (if newAttr.Template = false ∧ oldAttr.Template = true then ["template"] else [])

/-- Modelled from the spec: `englishListWithNoun` is a cmd-package string
helper absent from the given sources; only the prompt text uses it, no claim
depends on its exact output. -/
def englishListWithNoun (xs : List String) (noun : String) : String :=
  String.intercalate " and " xs ++ " " ++ noun ++ (if xs.length ≤ 1 then "" else "s")

/-- The prompt loop of `defaultReplaceFunc` (addcmd.go lines 161-177): same
four choices as the pre-add prompt, but `choice == "all"` sets the run-wide
`c.force` flag instead of clearing `c.Add.prompt`. -/
def replacePromptPhase (c : Config) (p : String) (env : ReplaceEnv) : HookOutput :=
  match env.promptResult with
  | .error e =>
      { result := .error (.ioError e), cfg := c, logs := [], prompts := [p], reads := [] }
  | .ok .all =>
      { result := .ok (), cfg := { c with force := true }, logs := [], prompts := [p],
        reads := [] }
  | .ok .no =>
      { result := .error .skipDir, cfg := c, logs := [], prompts := [p], reads := [] }
  | .ok .quit =>
      { result := .error (.exitCodeError 0), cfg := c, logs := [], prompts := [p], reads := [] }
  | .ok .yes =>
      { result := .ok (), cfg := c, logs := [], prompts := [p], reads := [] }

/-- Model of `defaultReplaceFunc` (addcmd.go lines 131-178): with `--force`, proceed
silently; if either the new or the old source state entry is not a
`SourceStateFile`, proceed silently; if adding would not drop any of the
encrypted, private or template attributes, proceed silently; otherwise
prompt `adding <target> would remove <attributes>, continue`. -/
def defaultReplaceFunc (c : Config) (targetRelPath : String)
    (newEntry oldEntry : SourceStateEntry) (env : ReplaceEnv) : HookOutput :=
  if c.force = true then
    { result := .ok (), cfg := c, logs := [], prompts := [], reads := [] }
  else
    match newEntry, oldEntry with
    | .file newAttr, .file oldAttr =>
      let removed := removedAttributes newAttr oldAttr
      if removed.length = 0 then
        { result := .ok (), cfg := c, logs := [], prompts := [], reads := [] }
      else
        replacePromptPhase c
          ("adding " ++ targetRelPath ++ " would remove " ++
            englishListWithNoun removed "attribute" ++ ", continue")
          env
    | _, _ =>
      { result := .ok (), cfg := c, logs := [], prompts := [], reads := [] }

/-- Modelled from the spec: the `PolicyViolationError` of the spec error
taxonomy (secret scan failed under strict policy) is realized in the code as
the `chezmoi.ExitCodeError(1)` returned at addcmd.go line 101. -/
def PolicyViolationError : GoError := .exitCodeError 1

/-- Modelled from the spec: the process exit status of a run that ended with
the given hook result.  `chezmoi.ExitCodeError(n)` carries exit status `n`
(so the `quit` signal `ExitCodeError(0)` reports success); a `nil` result is
success; any other error is a failure. -/
def exitStatus : Except GoError Unit → Nat
  | .ok _ => 0
  | .error (.exitCodeError n) => n
  | .error _ => 1

/-- One capture observation of a regular file: its target-relative path, its
file info, and the environment its pre-add hook invocation would see. -/
def Obs := String × FileInfo × PreAddEnv

/-- Modelled from the spec: the per-file slice of the capture ("add") loop of
`SourceState.Add`, which is not among the given sources.  Per observation in
order, the pre-add hook runs first; on `nil` the file is written and
processing continues, on `Skip` (`fs.SkipDir`) the entry is ignored without
error and processing continues, and on any other error processing of all
remaining observations aborts immediately with that error and nothing is
written for the offending file.  Returns the list of written target paths
and the result of the run. -/
def captureFiles (c : Config) : List Obs → List String × Except GoError Unit
  | [] => ([], .ok ())
  | (rel, info, env) :: rest =>
    let out := defaultPreAddFunc c rel info env
    match out.result with
    | .ok _ =>
        let next := captureFiles out.cfg rest
        (rel :: next.1, next.2)
    | .error .skipDir => captureFiles out.cfg rest
    | .error e => ([], .error e)

/-- Model of `chezmoimaps.Keys`: the keys of the map, in the indeterminate
iteration order.  A Go map is modelled as its list of key-value pairs in
iteration order; theorems quantify over permutations to reflect that the
order is indeterminate. -/
def Keys {K V : Type} (m : List (K × V)) : List K :=
  m.map Prod.fst

/-- Model of `chezmoimaps.SortedKeys`: `Keys` followed by `slices.Sort`, i.e. the keys
in ascending order. -/
def SortedKeys {K V : Type} [LinearOrder K] (m : List (K × V)) : List K :=
  List.insertionSort (· ≤ ·) (Keys m)

/-- A new file entry drops an attribute of the old one: at least one of
`Encrypted`, `Private`, `Template` is set on the old attributes and clear on
the new ones. -/
def dropsAttribute (newAttr oldAttr : FileAttr) : Prop :=
  (newAttr.Encrypted = false ∧ oldAttr.Encrypted = true) ∨
  (newAttr.Private = false ∧ oldAttr.Private = true) ∨
  (newAttr.Template = false ∧ oldAttr.Template = true)

instance (newAttr oldAttr : FileAttr) : Decidable (dropsAttribute newAttr oldAttr) := by
  unfold dropsAttribute
  infer_instance

/-- The condition under which `defaultReplaceFunc` prompts: no `--force`,
both entries are source state files, and the new entry drops one of the
three guarded attributes. -/
def replacePromptCond (c : Config) (newEntry oldEntry : SourceStateEntry) : Prop :=
  c.force = false ∧ ∃ newAttr oldAttr, newEntry = .file newAttr ∧ oldEntry = .file oldAttr ∧
    dropsAttribute newAttr oldAttr

theorem removedAttributes_ne_nil_iff (newAttr oldAttr : FileAttr) :
    removedAttributes newAttr oldAttr ≠ [] ↔ dropsAttribute newAttr oldAttr := by
  rcases newAttr with ⟨e1, p1, t1⟩
  rcases oldAttr with ⟨e2, p2, t2⟩
  revert e1 p1 t1 e2 p2 t2
  decide

theorem promptPhase_reads (c : Config) (rel : String) (env : PreAddEnv)
    (logs reads : List String) : (promptPhase c rel env logs reads).reads = reads := by
  unfold promptPhase
  split
  · rfl
  · cases h : env.promptResult with
    | error e => rfl
    | ok ch => cases ch <;> rfl

theorem promptPhase_congr (c : Config) (rel : String) (env1 env2 : PreAddEnv)
    (logs reads : List String) (h : env1.promptResult = env2.promptResult) :
    promptPhase c rel env1 logs reads = promptPhase c rel env2 logs reads := by
  unfold promptPhase
  rw [h]

theorem promptPhase_prompt_false (c : Config) (rel : String) (env : PreAddEnv)
    (logs reads : List String) (h : c.Add.prompt = false) :
    promptPhase c rel env logs reads =
      { result := .ok (), cfg := c, logs := logs, prompts := [], reads := reads } := by
  simp [promptPhase, h]

theorem promptPhase_prompts_ne (c : Config) (rel : String) (env : PreAddEnv)
    (logs reads : List String) (h : (promptPhase c rel env logs reads).prompts ≠ []) :
    c.Add.prompt = true := by
  cases hp : c.Add.prompt with
  | false => rw [promptPhase_prompt_false c rel env logs reads hp] at h; simp at h
  | true => rfl

theorem promptPhase_all (c : Config) (rel : String) (env : PreAddEnv)
    (logs reads : List String) (hp : c.Add.prompt = true)
    (hc : env.promptResult = .ok .all) :
    promptPhase c rel env logs reads =
      { result := .ok (), cfg := { c with Add := { c.Add with prompt := false } },
        logs := logs, prompts := ["add " ++ join c.SourceDirAbsPath rel],
        reads := reads } := by
  simp [promptPhase, hp, hc]

theorem promptPhase_no (c : Config) (rel : String) (env : PreAddEnv)
    (logs reads : List String) (hp : c.Add.prompt = true)
    (hc : env.promptResult = .ok .no) :
    promptPhase c rel env logs reads =
      { result := .error .skipDir, cfg := c, logs := logs,
        prompts := ["add " ++ join c.SourceDirAbsPath rel], reads := reads } := by
  simp [promptPhase, hp, hc]

theorem promptPhase_quit (c : Config) (rel : String) (env : PreAddEnv)
    (logs reads : List String) (hp : c.Add.prompt = true)
    (hc : env.promptResult = .ok .quit) :
    promptPhase c rel env logs reads =
      { result := .error (.exitCodeError 0), cfg := c, logs := logs,
        prompts := ["add " ++ join c.SourceDirAbsPath rel], reads := reads } := by
  simp [promptPhase, hp, hc]

theorem promptPhase_no_policy (c : Config) (rel : String) (env : PreAddEnv)
    (logs reads : List String) :
    (promptPhase c rel env logs reads).result ≠ .error (.exitCodeError 1) := by
  unfold promptPhase
  split
  · simp
  · cases h : env.promptResult with
    | error e => simp
    | ok ch => cases ch <;> simp

theorem defaultPreAddFunc_shape (c : Config) (rel : String) (info : FileInfo)
    (env : PreAddEnv) :
    (defaultPreAddFunc c rel info env).prompts = [] ∨
    (c.Add.prompt = true ∧
      ∃ logs reads, defaultPreAddFunc c rel info env = promptPhase c rel env logs reads) := by
  unfold defaultPreAddFunc
  split
  · split
    · simp
    · split
      · simp
      · split
        · simp
        · cases hp : c.Add.prompt with
          | false => exact Or.inl (by rw [promptPhase_prompt_false _ _ _ _ _ hp])
          | true => exact Or.inr ⟨rfl, _, _, rfl⟩
  · cases hp : c.Add.prompt with
    | false => exact Or.inl (by rw [promptPhase_prompt_false _ _ _ _ _ hp])
    | true => exact Or.inr ⟨rfl, _, _, rfl⟩

theorem defaultPreAddFunc_prompt_false (c : Config) (rel : String) (info : FileInfo)
    (env : PreAddEnv) (h : c.Add.prompt = false) :
    (defaultPreAddFunc c rel info env).prompts = [] := by
  rcases defaultPreAddFunc_shape c rel info env with h0 | ⟨hp, _⟩
  · exact h0
  · rw [hp] at h; cases h

theorem defaultPreAddFunc_force_no_policy (c : Config) (rel : String) (info : FileInfo)
    (env : PreAddEnv) (h : c.force = true) :
    (defaultPreAddFunc c rel info env).result ≠ .error (.exitCodeError 1) := by
  unfold defaultPreAddFunc
  split
  · split
    · simp
    · split
      · simp
      · split
        · next hcond =>
            rw [h] at hcond
            exact absurd hcond.1 (by decide)
        · exact promptPhase_no_policy _ _ _ _ _
  · exact promptPhase_no_policy _ _ _ _ _

theorem defaultPreAddFunc_reads (c : Config) (rel : String) (info : FileInfo)
    (env : PreAddEnv) :
    (defaultPreAddFunc c rel info env).reads =
      if c.Add.Secrets ≠ Severity.ignore ∧ info.modeType = 0 ∧ c.Add.Encrypt = false then
        [join c.DestDirAbsPath rel]
      else
        [] := by
  unfold defaultPreAddFunc
  split
  · split
    · rfl
    · split
      · rfl
      · split
        · rfl
        · exact promptPhase_reads _ _ _ _ _
  · exact promptPhase_reads _ _ _ _ _

theorem replacePromptPhase_no_prompts (c : Config) (p : String) (env : ReplaceEnv) :
    (replacePromptPhase c p env).prompts = [p] := by
  unfold replacePromptPhase
  cases h : env.promptResult with
  | error e => rfl
  | ok ch => cases ch <;> rfl

theorem defaultReplaceFunc_spec (c : Config) (rel : String)
    (newEntry oldEntry : SourceStateEntry) (env : ReplaceEnv) :
    (¬ replacePromptCond c newEntry oldEntry →
      defaultReplaceFunc c rel newEntry oldEntry env =
        { result := .ok (), cfg := c, logs := [], prompts := [], reads := [] }) ∧
    (replacePromptCond c newEntry oldEntry →
      ∃ p, defaultReplaceFunc c rel newEntry oldEntry env = replacePromptPhase c p env) := by
  constructor
  · intro hnc
    unfold defaultReplaceFunc
    cases hf : c.force with
    | true => simp
    | false =>
      cases newEntry with
      | file newAttr =>
        cases oldEntry with
        | file oldAttr =>
          have hnd : ¬ dropsAttribute newAttr oldAttr := fun hd =>
            hnc ⟨hf, newAttr, oldAttr, rfl, rfl, hd⟩
          have hrem : removedAttributes newAttr oldAttr = [] := by
            by_contra hne2
            exact hnd ((removedAttributes_ne_nil_iff newAttr oldAttr).mp hne2)
          simp [hrem]
        | dir => simp
        | symlink => simp
        | script => simp
        | remove => simp
      | dir => simp
      | symlink => simp
      | script => simp
      | remove => simp
  · rintro ⟨hf, newAttr, oldAttr, hne2, hoe, hd⟩
    subst hne2
    subst hoe
    have hrem : removedAttributes newAttr oldAttr ≠ [] :=
      (removedAttributes_ne_nil_iff newAttr oldAttr).mpr hd
    refine ⟨"adding " ++ rel ++ " would remove " ++
      englishListWithNoun (removedAttributes newAttr oldAttr) "attribute" ++ ", continue", ?_⟩
    unfold defaultReplaceFunc
    rw [hf]
    simp only [Bool.false_eq_true, if_false]
    rw [if_neg (by simpa [List.length_eq_zero] using hrem)]

theorem replacePromptPhase_all (c : Config) (p : String) (env : ReplaceEnv)
    (hc : env.promptResult = .ok .all) :
    replacePromptPhase c p env =
      { result := .ok (), cfg := { c with force := true }, logs := [], prompts := [p],
        reads := [] } := by
  simp [replacePromptPhase, hc]

theorem replacePromptPhase_no (c : Config) (p : String) (env : ReplaceEnv)
    (hc : env.promptResult = .ok .no) :
    replacePromptPhase c p env =
      { result := .error .skipDir, cfg := c, logs := [], prompts := [p], reads := [] } := by
  simp [replacePromptPhase, hc]

theorem replacePromptPhase_quit (c : Config) (p : String) (env : ReplaceEnv)
    (hc : env.promptResult = .ok .quit) :
    replacePromptPhase c p env =
      { result := .error (.exitCodeError 0), cfg := c, logs := [], prompts := [p],
        reads := [] } := by
  simp [replacePromptPhase, hc]

theorem defaultReplaceFunc_prompted (c : Config) (rel : String)
    (newEntry oldEntry : SourceStateEntry) (env : ReplaceEnv)
    (h : (defaultReplaceFunc c rel newEntry oldEntry env).prompts ≠ []) :
    ∃ p, defaultReplaceFunc c rel newEntry oldEntry env = replacePromptPhase c p env := by
  by_cases hc : replacePromptCond c newEntry oldEntry
  · exact (defaultReplaceFunc_spec c rel newEntry oldEntry env).2 hc
  · rw [(defaultReplaceFunc_spec c rel newEntry oldEntry env).1 hc] at h
    simp at h

/-- C8: `SortedKeys` returns the keys of the map sorted in ascending order —
a sorted permutation of the map keys — and any two maps whose key
collections agree up to the (indeterminate) iteration order yield identical
`SortedKeys` slices. -/
theorem claim_C8 {K V : Type} [LinearOrder K] (m m2 : List (K × V)) :
    List.Sorted (· ≤ ·) (SortedKeys m) ∧
    (SortedKeys m).Perm (Keys m) ∧
    ((Keys m).Perm (Keys m2) → SortedKeys m = SortedKeys m2) := by
  refine ⟨List.sorted_insertionSort _ _, List.perm_insertionSort _ _, fun hp => ?_⟩
  exact List.eq_of_perm_of_sorted
    ((List.perm_insertionSort _ _).trans (hp.trans (List.perm_insertionSort _ _).symm))
    (List.sorted_insertionSort _ _) (List.sorted_insertionSort _ _)

/-- Witness for C8: two concrete maps with the same key set in different
iteration orders have identical sorted key slices. -/
theorem claim_C8_witness :
    (Keys ([(2, 10), (1, 20)] : List (Nat × Nat))).Perm
      (Keys ([(1, 30), (2, 40)] : List (Nat × Nat))) ∧
    SortedKeys ([(2, 10), (1, 20)] : List (Nat × Nat)) =
      SortedKeys ([(1, 30), (2, 40)] : List (Nat × Nat)) :=
  ⟨by decide, (claim_C8 [(2, 10), (1, 20)] [(1, 30), (2, 40)]).2.2 (by decide)⟩

/-- C10 counterexample: with `--quiet` set, `defaultOnIgnoreFunc` logs
nothing at all, so an ignored path is not logged exactly once. -/
theorem claim_C10_counterexample :
    ¬ ((defaultOnIgnoreFunc
        { Add := { Encrypt := false, Secrets := Severity.ignore, prompt := false,
                   quiet := true },
          force := false, DestDirAbsPath := "/home/user",
          SourceDirAbsPath := "/home/user/.local/share/chezmoi" } ".netrc").length = 1) := by
  decide

/-- C10 (amended): for every ignored target path, when `--quiet` is not set
the ignore callback logs the skip exactly once, as a warning naming the
path; with `--quiet` it logs nothing. -/
theorem claim_C10_amended (c : Config) (p : String) (h : c.Add.quiet = false) :
    defaultOnIgnoreFunc c p = ["warning: ignoring " ++ p ++ "\n"] ∧
    (defaultOnIgnoreFunc c p).length = 1 := by
  unfold defaultOnIgnoreFunc
  rw [if_pos h]
  exact ⟨rfl, rfl⟩

/-- Witness for the amended C10 at a concrete non-quiet configuration. -/
theorem claim_C10_witness :
    defaultOnIgnoreFunc
        { Add := { Encrypt := false, Secrets := Severity.ignore, prompt := false,
                   quiet := false },
          force := false, DestDirAbsPath := "/home/user",
          SourceDirAbsPath := "/home/user/.local/share/chezmoi" } ".netrc" =
      ["warning: ignoring " ++ ".netrc" ++ "\n"] ∧
    (defaultOnIgnoreFunc
        { Add := { Encrypt := false, Secrets := Severity.ignore, prompt := false,
                   quiet := false },
          force := false, DestDirAbsPath := "/home/user",
          SourceDirAbsPath := "/home/user/.local/share/chezmoi" } ".netrc").length = 1 :=
  claim_C10_amended _ ".netrc" rfl

/-- C1: for a candidate that is scanned (severity `error`, plain regular
file, `--encrypt` unset) whose content yields at least one finding, with no
force override the pre-add hook aborts with the policy violation error
(`chezmoi.ExitCodeError(1)`) and the capture loop writes nothing for that
file. -/
theorem claim_C1 (c : Config) (rel : String) (info : FileInfo) (env : PreAddEnv)
    (content : List Nat) (detectBytes : List Nat → List Finding) (rest : List Obs)
    (hsev : c.Add.Secrets = Severity.error) (hreg : info.modeType = 0)
    (henc : c.Add.Encrypt = false) (hforce : c.force = false)
    (hread : env.readFileResult = .ok content)
    (hdet : env.gitleaksDetector = .ok detectBytes)
    (hfind : 0 < (detectBytes content).length) :
    (defaultPreAddFunc c rel info env).result = .error PolicyViolationError ∧
    captureFiles c ((rel, info, env) :: rest) = ([], .error PolicyViolationError) := by
  have h1 : (defaultPreAddFunc c rel info env).result = .error PolicyViolationError := by
    simp [defaultPreAddFunc, hsev, hreg, henc, hforce, hread, hdet, hfind,
      PolicyViolationError]
  refine ⟨h1, ?_⟩
  simp [captureFiles, h1, PolicyViolationError]

/-- Witness for C1 at a concrete configuration and a file whose scan yields
one finding. -/
theorem claim_C1_witness :
    (defaultPreAddFunc
        { Add := { Encrypt := false, Secrets := Severity.error, prompt := false,
                   quiet := false },
          force := false, DestDirAbsPath := "/home/user",
          SourceDirAbsPath := "/home/user/.local/share/chezmoi" }
        "secret.txt" { modeType := 0 }
        { readFileResult := .ok [65, 75, 73, 65],
          gitleaksDetector :=
            .ok fun _ => [{ startLine := 0, description := "aws-access-key-id" }],
          promptResult := .ok .yes }).result = .error PolicyViolationError ∧
    captureFiles
        { Add := { Encrypt := false, Secrets := Severity.error, prompt := false,
                   quiet := false },
          force := false, DestDirAbsPath := "/home/user",
          SourceDirAbsPath := "/home/user/.local/share/chezmoi" }
        [("secret.txt", { modeType := 0 },
          { readFileResult := .ok [65, 75, 73, 65],
            gitleaksDetector :=
              .ok fun _ => [{ startLine := 0, description := "aws-access-key-id" }],
            promptResult := .ok .yes })] =
      ([], .error PolicyViolationError) :=
  claim_C1 _ _ _ _ [65, 75, 73, 65]
    (fun _ => [{ startLine := 0, description := "aws-access-key-id" }]) []
    rfl rfl rfl rfl rfl rfl (by decide)

/-- C7: the pre-add hook reads (scans) the candidate content exactly when
secret scanning is enabled (`--secrets` not `ignore`), the candidate is a
regular file and `--encrypt` is not set; in particular with `--encrypt` set
there is no content read, no policy abort, and the hook outcome does not
depend on the content-related environment at all. -/
theorem claim_C7 (c : Config) (rel : String) (info : FileInfo) (env : PreAddEnv) :
    ((defaultPreAddFunc c rel info env).reads ≠ [] ↔
      (c.Add.Secrets ≠ Severity.ignore ∧ info.modeType = 0 ∧ c.Add.Encrypt = false)) ∧
    (c.Add.Encrypt = true →
      (defaultPreAddFunc c rel info env).reads = [] ∧
      (defaultPreAddFunc c rel info env).result ≠ .error PolicyViolationError ∧
      ∀ env2 : PreAddEnv, env2.promptResult = env.promptResult →
        defaultPreAddFunc c rel info env2 = defaultPreAddFunc c rel info env) := by
  constructor
  · rw [defaultPreAddFunc_reads]
    by_cases hcond :
        c.Add.Secrets ≠ Severity.ignore ∧ info.modeType = 0 ∧ c.Add.Encrypt = false
    · rw [if_pos hcond]
      simp [hcond]
    · rw [if_neg hcond]
      simp [hcond]
  · intro henc
    have hcondF :
        ¬ (c.Add.Secrets ≠ Severity.ignore ∧ info.modeType = 0 ∧ c.Add.Encrypt = false) := by
      rintro ⟨-, -, hE⟩
      rw [henc] at hE
      cases hE
    have e2 : defaultPreAddFunc c rel info env = promptPhase c rel env [] [] := by
      unfold defaultPreAddFunc
      rw [if_neg hcondF]
    refine ⟨?_, ?_, ?_⟩
    · rw [defaultPreAddFunc_reads, if_neg hcondF]
    · rw [e2]
      exact promptPhase_no_policy _ _ _ _ _
    · intro env2 hpe
      have e1 : defaultPreAddFunc c rel info env2 = promptPhase c rel env2 [] [] := by
        unfold defaultPreAddFunc
        rw [if_neg hcondF]
      rw [e1, e2]
      exact promptPhase_congr _ _ _ _ _ _ hpe

/-- Witness for C7: instantiation at a concrete `--encrypt` configuration
where the scan would have produced a finding. -/
theorem claim_C7_witness :
    ((defaultPreAddFunc
        { Add := { Encrypt := true, Secrets := Severity.error, prompt := false,
                   quiet := false },
          force := false, DestDirAbsPath := "/home/user",
          SourceDirAbsPath := "/home/user/.local/share/chezmoi" }
        "id_rsa" { modeType := 0 }
        { readFileResult := .ok [1, 2, 3],
          gitleaksDetector := .ok fun _ => [{ startLine := 0, description := "private-key" }],
          promptResult := .ok .yes }).reads ≠ [] ↔
      (Severity.error ≠ Severity.ignore ∧ (0 : Nat) = 0 ∧ true = false)) ∧
    (true = true →
      (defaultPreAddFunc
        { Add := { Encrypt := true, Secrets := Severity.error, prompt := false,
                   quiet := false },
          force := false, DestDirAbsPath := "/home/user",
          SourceDirAbsPath := "/home/user/.local/share/chezmoi" }
        "id_rsa" { modeType := 0 }
        { readFileResult := .ok [1, 2, 3],
          gitleaksDetector := .ok fun _ => [{ startLine := 0, description := "private-key" }],
          promptResult := .ok .yes }).reads = [] ∧
      (defaultPreAddFunc
        { Add := { Encrypt := true, Secrets := Severity.error, prompt := false,
                   quiet := false },
          force := false, DestDirAbsPath := "/home/user",
          SourceDirAbsPath := "/home/user/.local/share/chezmoi" }
        "id_rsa" { modeType := 0 }
        { readFileResult := .ok [1, 2, 3],
          gitleaksDetector := .ok fun _ => [{ startLine := 0, description := "private-key" }],
          promptResult := .ok .yes }).result ≠ .error PolicyViolationError ∧
      ∀ env2 : PreAddEnv,
        env2.promptResult =
          (PreAddEnv.mk (.ok [1, 2, 3])
            (.ok fun _ => [{ startLine := 0, description := "private-key" }])
            (.ok .yes)).promptResult →
        defaultPreAddFunc
          { Add := { Encrypt := true, Secrets := Severity.error, prompt := false,
                     quiet := false },
            force := false, DestDirAbsPath := "/home/user",
            SourceDirAbsPath := "/home/user/.local/share/chezmoi" }
          "id_rsa" { modeType := 0 } env2 =
        defaultPreAddFunc
          { Add := { Encrypt := true, Secrets := Severity.error, prompt := false,
                     quiet := false },
            force := false, DestDirAbsPath := "/home/user",
            SourceDirAbsPath := "/home/user/.local/share/chezmoi" }
          "id_rsa" { modeType := 0 }
          { readFileResult := .ok [1, 2, 3],
            gitleaksDetector := .ok fun _ => [{ startLine := 0, description := "private-key" }],
            promptResult := .ok .yes }) :=
  claim_C7 _ "id_rsa" { modeType := 0 } _

/-- C3: the replace hook prompts exactly when no force override is set, both
the old and new entries are source state files, and the new entry drops one
of the `Encrypted`, `Private`, `Template` attributes set on the old one; in
every other case it proceeds silently, leaving the configuration
untouched. -/
theorem claim_C3 (c : Config) (rel : String) (newEntry oldEntry : SourceStateEntry)
    (env : ReplaceEnv) :
    ((defaultReplaceFunc c rel newEntry oldEntry env).prompts ≠ [] ↔
      replacePromptCond c newEntry oldEntry) ∧
    (¬ replacePromptCond c newEntry oldEntry →
      defaultReplaceFunc c rel newEntry oldEntry env =
        { result := .ok (), cfg := c, logs := [], prompts := [], reads := [] }) := by
  refine ⟨⟨fun h => ?_, fun hc => ?_⟩, (defaultReplaceFunc_spec c rel newEntry oldEntry env).1⟩
  · by_cases hc : replacePromptCond c newEntry oldEntry
    · exact hc
    · rw [(defaultReplaceFunc_spec c rel newEntry oldEntry env).1 hc] at h
      simp at h
  · rcases (defaultReplaceFunc_spec c rel newEntry oldEntry env).2 hc with ⟨p, heq⟩
    rw [heq, replacePromptPhase_no_prompts]
    simp

/-- Witness for C3: a replacement that would drop the `encrypted` attribute
prompts, and the same entries under `--force` proceed silently. -/
theorem claim_C3_witness :
    ((defaultReplaceFunc
        { Add := { Encrypt := false, Secrets := Severity.warning, prompt := false,
                   quiet := false },
          force := false, DestDirAbsPath := "/home/user",
          SourceDirAbsPath := "/home/user/.local/share/chezmoi" }
        ".ssh/config"
        (.file { Encrypted := false, Private := false, Template := false })
        (.file { Encrypted := true, Private := false, Template := false })
        { promptResult := .ok .yes }).prompts ≠ [] ↔
      replacePromptCond
        { Add := { Encrypt := false, Secrets := Severity.warning, prompt := false,
                   quiet := false },
          force := false, DestDirAbsPath := "/home/user",
          SourceDirAbsPath := "/home/user/.local/share/chezmoi" }
        (.file { Encrypted := false, Private := false, Template := false })
        (.file { Encrypted := true, Private := false, Template := false })) ∧
    (¬ replacePromptCond
        { Add := { Encrypt := false, Secrets := Severity.warning, prompt := false,
                   quiet := false },
          force := false, DestDirAbsPath := "/home/user",
          SourceDirAbsPath := "/home/user/.local/share/chezmoi" }
        (.file { Encrypted := false, Private := false, Template := false })
        (.file { Encrypted := true, Private := false, Template := false }) →
      defaultReplaceFunc
        { Add := { Encrypt := false, Secrets := Severity.warning, prompt := false,
                   quiet := false },
          force := false, DestDirAbsPath := "/home/user",
          SourceDirAbsPath := "/home/user/.local/share/chezmoi" }
        ".ssh/config"
        (.file { Encrypted := false, Private := false, Template := false })
        (.file { Encrypted := true, Private := false, Template := false })
        { promptResult := .ok .yes } =
        { result := .ok (),
          cfg :=
            { Add := { Encrypt := false, Secrets := Severity.warning, prompt := false,
                       quiet := false },
              force := false, DestDirAbsPath := "/home/user",
              SourceDirAbsPath := "/home/user/.local/share/chezmoi" },
          logs := [], prompts := [], reads := [] }) :=
  claim_C3 _ ".ssh/config" _ _ _

/-- C2: when the user answers `quit` at an issued pre-add prompt or replace
prompt, the hook returns `chezmoi.ExitCodeError(0)` — a termination signal
whose exit status is 0, i.e. success — and the capture run stops with exit
status 0 rather than a failure. -/
theorem claim_C2 (c c2 : Config) (rel rel2 : String) (info : FileInfo) (env : PreAddEnv)
    (newEntry oldEntry : SourceStateEntry) (renv : ReplaceEnv) (rest : List Obs)
    (hq : env.promptResult = .ok .quit) (hq2 : renv.promptResult = .ok .quit)
    (h1 : (defaultPreAddFunc c rel info env).prompts ≠ [])
    (h2 : (defaultReplaceFunc c2 rel2 newEntry oldEntry renv).prompts ≠ []) :
    (defaultPreAddFunc c rel info env).result = .error (.exitCodeError 0) ∧
    exitStatus (defaultPreAddFunc c rel info env).result = 0 ∧
    (defaultReplaceFunc c2 rel2 newEntry oldEntry renv).result = .error (.exitCodeError 0) ∧
    exitStatus (defaultReplaceFunc c2 rel2 newEntry oldEntry renv).result = 0 ∧
    (captureFiles c ((rel, info, env) :: rest)).2 = .error (.exitCodeError 0) ∧
    exitStatus (captureFiles c ((rel, info, env) :: rest)).2 = 0 := by
  have hpre : (defaultPreAddFunc c rel info env).result = .error (.exitCodeError 0) := by
    rcases defaultPreAddFunc_shape c rel info env with h0 | ⟨hp, logs, reads, heq⟩
    · exact absurd h0 h1
    · rw [heq, promptPhase_quit c rel env logs reads hp hq]
  have hrep :
      (defaultReplaceFunc c2 rel2 newEntry oldEntry renv).result = .error (.exitCodeError 0) := by
    rcases defaultReplaceFunc_prompted c2 rel2 newEntry oldEntry renv h2 with ⟨p, heq⟩
    rw [heq, replacePromptPhase_quit c2 p renv hq2]
  have hcap : (captureFiles c ((rel, info, env) :: rest)).2 = .error (.exitCodeError 0) := by
    simp [captureFiles, hpre]
  exact ⟨hpre, by rw [hpre]; rfl, hrep, by rw [hrep]; rfl, hcap, by rw [hcap]; rfl⟩

/-- Witness for C2 at a concrete run answering `quit` at both prompts. -/
theorem claim_C2_witness :
    (defaultPreAddFunc
        { Add := { Encrypt := false, Secrets := Severity.ignore, prompt := true,
                   quiet := false },
          force := false, DestDirAbsPath := "/home/user",
          SourceDirAbsPath := "/home/user/.local/share/chezmoi" }
        ".bashrc" { modeType := 0 }
        { readFileResult := .ok [], gitleaksDetector := .ok fun _ => [],
          promptResult := .ok .quit }).result = .error (.exitCodeError 0) ∧
    exitStatus
      (defaultPreAddFunc
        { Add := { Encrypt := false, Secrets := Severity.ignore, prompt := true,
                   quiet := false },
          force := false, DestDirAbsPath := "/home/user",
          SourceDirAbsPath := "/home/user/.local/share/chezmoi" }
        ".bashrc" { modeType := 0 }
        { readFileResult := .ok [], gitleaksDetector := .ok fun _ => [],
          promptResult := .ok .quit }).result = 0 ∧
    (defaultReplaceFunc
        { Add := { Encrypt := false, Secrets := Severity.ignore, prompt := true,
                   quiet := false },
          force := false, DestDirAbsPath := "/home/user",
          SourceDirAbsPath := "/home/user/.local/share/chezmoi" }
        ".gitconfig"
        (.file { Encrypted := false, Private := false, Template := false })
        (.file { Encrypted := false, Private := true, Template := false })
        { promptResult := .ok .quit }).result = .error (.exitCodeError 0) ∧
    exitStatus
      (defaultReplaceFunc
        { Add := { Encrypt := false, Secrets := Severity.ignore, prompt := true,
                   quiet := false },
          force := false, DestDirAbsPath := "/home/user",
          SourceDirAbsPath := "/home/user/.local/share/chezmoi" }
        ".gitconfig"
        (.file { Encrypted := false, Private := false, Template := false })
        (.file { Encrypted := false, Private := true, Template := false })
        { promptResult := .ok .quit }).result = 0 ∧
    (captureFiles
        { Add := { Encrypt := false, Secrets := Severity.ignore, prompt := true,
                   quiet := false },
          force := false, DestDirAbsPath := "/home/user",
          SourceDirAbsPath := "/home/user/.local/share/chezmoi" }
        [(".bashrc", { modeType := 0 },
          { readFileResult := .ok [], gitleaksDetector := .ok fun _ => [],
            promptResult := .ok .quit })]).2 = .error (.exitCodeError 0) ∧
    exitStatus
      (captureFiles
        { Add := { Encrypt := false, Secrets := Severity.ignore, prompt := true,
                   quiet := false },
          force := false, DestDirAbsPath := "/home/user",
          SourceDirAbsPath := "/home/user/.local/share/chezmoi" }
        [(".bashrc", { modeType := 0 },
          { readFileResult := .ok [], gitleaksDetector := .ok fun _ => [],
            promptResult := .ok .quit })]).2 = 0 :=
  claim_C2 _ _ ".bashrc" ".gitconfig" _ _ _ _ _ [] rfl rfl (by decide) (by decide)

/-- C4: answering `all` at an issued pre-add prompt returns Proceed (`nil`)
and clears `c.Add.prompt`, so every later pre-add invocation in the run
issues no prompt. -/
theorem claim_C4 (c : Config) (rel : String) (info : FileInfo) (env : PreAddEnv)
    (hall : env.promptResult = .ok .all)
    (h1 : (defaultPreAddFunc c rel info env).prompts ≠ []) :
    (defaultPreAddFunc c rel info env).result = .ok () ∧
    (defaultPreAddFunc c rel info env).cfg.Add.prompt = false ∧
    ∀ (rel2 : String) (info2 : FileInfo) (env2 : PreAddEnv),
      (defaultPreAddFunc (defaultPreAddFunc c rel info env).cfg rel2 info2 env2).prompts =
        [] := by
  rcases defaultPreAddFunc_shape c rel info env with h0 | ⟨hp, logs, reads, heq⟩
  · exact absurd h0 h1
  · rw [heq, promptPhase_all c rel env logs reads hp hall]
    exact ⟨rfl, rfl, fun rel2 info2 env2 => defaultPreAddFunc_prompt_false _ _ _ _ rfl⟩

/-- Witness for C4 at a concrete prompting run answering `all`. -/
theorem claim_C4_witness :
    (defaultPreAddFunc
        { Add := { Encrypt := false, Secrets := Severity.ignore, prompt := true,
                   quiet := false },
          force := false, DestDirAbsPath := "/home/user",
          SourceDirAbsPath := "/home/user/.local/share/chezmoi" }
        ".bashrc" { modeType := 0 }
        { readFileResult := .ok [], gitleaksDetector := .ok fun _ => [],
          promptResult := .ok .all }).result = .ok () ∧
    (defaultPreAddFunc
        { Add := { Encrypt := false, Secrets := Severity.ignore, prompt := true,
                   quiet := false },
          force := false, DestDirAbsPath := "/home/user",
          SourceDirAbsPath := "/home/user/.local/share/chezmoi" }
        ".bashrc" { modeType := 0 }
        { readFileResult := .ok [], gitleaksDetector := .ok fun _ => [],
          promptResult := .ok .all }).cfg.Add.prompt = false ∧
    ∀ (rel2 : String) (info2 : FileInfo) (env2 : PreAddEnv),
      (defaultPreAddFunc
        (defaultPreAddFunc
          { Add := { Encrypt := false, Secrets := Severity.ignore, prompt := true,
                     quiet := false },
            force := false, DestDirAbsPath := "/home/user",
            SourceDirAbsPath := "/home/user/.local/share/chezmoi" }
          ".bashrc" { modeType := 0 }
          { readFileResult := .ok [], gitleaksDetector := .ok fun _ => [],
            promptResult := .ok .all }).cfg rel2 info2 env2).prompts = [] :=
  claim_C4 _ ".bashrc" _ _ rfl (by decide)

/-- C5: answering `all` at an issued replace prompt returns Proceed (`nil`)
and sets the run-wide `c.force`, so every later replace invocation in the
run proceeds immediately without prompting. -/
theorem claim_C5 (c : Config) (rel : String) (newEntry oldEntry : SourceStateEntry)
    (env : ReplaceEnv) (hall : env.promptResult = .ok .all)
    (h1 : (defaultReplaceFunc c rel newEntry oldEntry env).prompts ≠ []) :
    (defaultReplaceFunc c rel newEntry oldEntry env).result = .ok () ∧
    (defaultReplaceFunc c rel newEntry oldEntry env).cfg.force = true ∧
    ∀ (rel2 : String) (n2 o2 : SourceStateEntry) (env2 : ReplaceEnv),
      defaultReplaceFunc (defaultReplaceFunc c rel newEntry oldEntry env).cfg rel2 n2 o2
          env2 =
        { result := .ok (), cfg := (defaultReplaceFunc c rel newEntry oldEntry env).cfg,
          logs := [], prompts := [], reads := [] } := by
  rcases defaultReplaceFunc_prompted c rel newEntry oldEntry env h1 with ⟨p, heq⟩
  rw [heq, replacePromptPhase_all c p env hall]
  refine ⟨rfl, rfl, fun rel2 n2 o2 env2 => ?_⟩
  unfold defaultReplaceFunc
  rw [if_pos rfl]

/-- Witness for C5 at a concrete replace prompt answering `all`. -/
theorem claim_C5_witness :
    (defaultReplaceFunc
        { Add := { Encrypt := false, Secrets := Severity.ignore, prompt := false,
                   quiet := false },
          force := false, DestDirAbsPath := "/home/user",
          SourceDirAbsPath := "/home/user/.local/share/chezmoi" }
        ".gitconfig"
        (.file { Encrypted := false, Private := false, Template := false })
        (.file { Encrypted := false, Private := false, Template := true })
        { promptResult := .ok .all }).result = .ok () ∧
    (defaultReplaceFunc
        { Add := { Encrypt := false, Secrets := Severity.ignore, prompt := false,
                   quiet := false },
          force := false, DestDirAbsPath := "/home/user",
          SourceDirAbsPath := "/home/user/.local/share/chezmoi" }
        ".gitconfig"
        (.file { Encrypted := false, Private := false, Template := false })
        (.file { Encrypted := false, Private := false, Template := true })
        { promptResult := .ok .all }).cfg.force = true ∧
    ∀ (rel2 : String) (n2 o2 : SourceStateEntry) (env2 : ReplaceEnv),
      defaultReplaceFunc
          (defaultReplaceFunc
            { Add := { Encrypt := false, Secrets := Severity.ignore, prompt := false,
                       quiet := false },
              force := false, DestDirAbsPath := "/home/user",
              SourceDirAbsPath := "/home/user/.local/share/chezmoi" }
            ".gitconfig"
            (.file { Encrypted := false, Private := false, Template := false })
            (.file { Encrypted := false, Private := false, Template := true })
            { promptResult := .ok .all }).cfg rel2 n2 o2 env2 =
        { result := .ok (),
          cfg :=
            (defaultReplaceFunc
              { Add := { Encrypt := false, Secrets := Severity.ignore, prompt := false,
                         quiet := false },
                force := false, DestDirAbsPath := "/home/user",
                SourceDirAbsPath := "/home/user/.local/share/chezmoi" }
              ".gitconfig"
              (.file { Encrypted := false, Private := false, Template := false })
              (.file { Encrypted := false, Private := false, Template := true })
              { promptResult := .ok .all }).cfg,
          logs := [], prompts := [], reads := [] } :=
  claim_C5 _ ".gitconfig" _ _ _ rfl (by decide)

/-- C6: answering `all` at an issued replace prompt sets the run-wide
`c.force` flag, and with it set the pre-add hook can never return the policy
violation error — even for a file whose scan yields findings under severity
`error`. -/
theorem claim_C6 (c : Config) (rel : String) (newEntry oldEntry : SourceStateEntry)
    (env : ReplaceEnv) (hall : env.promptResult = .ok .all)
    (h1 : (defaultReplaceFunc c rel newEntry oldEntry env).prompts ≠ []) :
    (defaultReplaceFunc c rel newEntry oldEntry env).cfg.force = true ∧
    ∀ (rel2 : String) (info2 : FileInfo) (env2 : PreAddEnv),
      (defaultPreAddFunc (defaultReplaceFunc c rel newEntry oldEntry env).cfg rel2 info2
          env2).result ≠ .error PolicyViolationError := by
  rcases defaultReplaceFunc_prompted c rel newEntry oldEntry env h1 with ⟨p, heq⟩
  rw [heq, replacePromptPhase_all c p env hall]
  exact ⟨rfl, fun rel2 info2 env2 => defaultPreAddFunc_force_no_policy _ _ _ _ rfl⟩

/-- Witness for C6 at a concrete replace prompt answering `all`. -/
theorem claim_C6_witness :
    (defaultReplaceFunc
        { Add := { Encrypt := false, Secrets := Severity.error, prompt := false,
                   quiet := false },
          force := false, DestDirAbsPath := "/home/user",
          SourceDirAbsPath := "/home/user/.local/share/chezmoi" }
        ".netrc"
        (.file { Encrypted := false, Private := false, Template := false })
        (.file { Encrypted := true, Private := true, Template := false })
        { promptResult := .ok .all }).cfg.force = true ∧
    ∀ (rel2 : String) (info2 : FileInfo) (env2 : PreAddEnv),
      (defaultPreAddFunc
          (defaultReplaceFunc
            { Add := { Encrypt := false, Secrets := Severity.error, prompt := false,
                       quiet := false },
              force := false, DestDirAbsPath := "/home/user",
              SourceDirAbsPath := "/home/user/.local/share/chezmoi" }
            ".netrc"
            (.file { Encrypted := false, Private := false, Template := false })
            (.file { Encrypted := true, Private := true, Template := false })
            { promptResult := .ok .all }).cfg rel2 info2 env2).result ≠
        .error PolicyViolationError :=
  claim_C6 _ ".netrc" _ _ _ rfl (by decide)

/-- C9: answering `no` at an issued pre-add prompt or replace prompt makes
the hook return the Skip decision (`fs.SkipDir`), and the capture loop drops
the current entry without error and continues with the next observation. -/
theorem claim_C9 (c c2 : Config) (rel rel2 : String) (info : FileInfo) (env : PreAddEnv)
    (newEntry oldEntry : SourceStateEntry) (renv : ReplaceEnv) (rest : List Obs)
    (hno : env.promptResult = .ok .no) (hno2 : renv.promptResult = .ok .no)
    (h1 : (defaultPreAddFunc c rel info env).prompts ≠ [])
    (h2 : (defaultReplaceFunc c2 rel2 newEntry oldEntry renv).prompts ≠ []) :
    (defaultPreAddFunc c rel info env).result = .error .skipDir ∧
    (defaultReplaceFunc c2 rel2 newEntry oldEntry renv).result = .error .skipDir ∧
    captureFiles c ((rel, info, env) :: rest) =
      captureFiles (defaultPreAddFunc c rel info env).cfg rest := by
  have hpre : (defaultPreAddFunc c rel info env).result = .error .skipDir := by
    rcases defaultPreAddFunc_shape c rel info env with h0 | ⟨hp, logs, reads, heq⟩
    · exact absurd h0 h1
    · rw [heq, promptPhase_no c rel env logs reads hp hno]
  have hrep : (defaultReplaceFunc c2 rel2 newEntry oldEntry renv).result = .error .skipDir := by
    rcases defaultReplaceFunc_prompted c2 rel2 newEntry oldEntry renv h2 with ⟨p, heq⟩
    rw [heq, replacePromptPhase_no c2 p renv hno2]
  refine ⟨hpre, hrep, ?_⟩
  simp [captureFiles, hpre]

/-- Witness for C9 at a concrete run answering `no` at both prompts. -/
theorem claim_C9_witness :
    (defaultPreAddFunc
        { Add := { Encrypt := false, Secrets := Severity.ignore, prompt := true,
                   quiet := false },
          force := false, DestDirAbsPath := "/home/user",
          SourceDirAbsPath := "/home/user/.local/share/chezmoi" }
        ".bashrc" { modeType := 0 }
        { readFileResult := .ok [], gitleaksDetector := .ok fun _ => [],
          promptResult := .ok .no }).result = .error .skipDir ∧
    (defaultReplaceFunc
        { Add := { Encrypt := false, Secrets := Severity.ignore, prompt := true,
                   quiet := false },
          force := false, DestDirAbsPath := "/home/user",
          SourceDirAbsPath := "/home/user/.local/share/chezmoi" }
        ".gitconfig"
        (.file { Encrypted := false, Private := false, Template := false })
        (.file { Encrypted := false, Private := true, Template := false })
        { promptResult := .ok .no }).result = .error .skipDir ∧
    captureFiles
        { Add := { Encrypt := false, Secrets := Severity.ignore, prompt := true,
                   quiet := false },
          force := false, DestDirAbsPath := "/home/user",
          SourceDirAbsPath := "/home/user/.local/share/chezmoi" }
        [(".bashrc", { modeType := 0 },
          { readFileResult := .ok [], gitleaksDetector := .ok fun _ => [],
            promptResult := .ok .no })] =
      captureFiles
        (defaultPreAddFunc
          { Add := { Encrypt := false, Secrets := Severity.ignore, prompt := true,
                     quiet := false },
            force := false, DestDirAbsPath := "/home/user",
            SourceDirAbsPath := "/home/user/.local/share/chezmoi" }
          ".bashrc" { modeType := 0 }
          { readFileResult := .ok [], gitleaksDetector := .ok fun _ => [],
            promptResult := .ok .no }).cfg [] :=
  claim_C9 _ _ ".bashrc" ".gitconfig" _ _ _ _ _ [] rfl rfl (by decide) (by decide)

end Chezmoi
